import Mathlib

/-!
Verification of the theme-transition orchestrator
(`src/hook/useThemeTransition.ts`) against its natural-language
specification.  The TypeScript hook is shallowly embedded: pure helpers
become Lean functions over `ℚ`/`Bool`/`String`, the stateful parts of
`setTheme`/`toggleTheme` become explicit state-passing functions that also
emit the list of observable side effects (style-fragment creation/removal,
the platform start-transition call, theme-state updates), and the
DOM-fragment bookkeeping is a count of alive `<style>` nodes per element id.
-/

namespace ThemeTransition

/-- Animation types for theme transitions (enum `ThemeAnimationType`). -/
inductive ThemeAnimationType where
  | CIRCLE
  | BLUR_CIRCLE
  | FADE
  | SLIDE
  | NONE
deriving DecidableEq, Repr

/-- Direction options for the slide animation (enum `SlideDirection`). -/
inductive SlideDirection where
  | UP
  | DOWN
  | LEFT
  | RIGHT
deriving DecidableEq, Repr

/-- The hook configuration after defaulting (`ThemeTransitionOptions`
merged with the defaults at the top of `useThemeTransition`). -/
structure Config where
  duration : ℚ := 750
  easing : String := "cubic-bezier(0.4, 0, 0.2, 1)"
  themeClassName : String := "dark"
  animationType : ThemeAnimationType := ThemeAnimationType.CIRCLE
  blurAmount : ℚ := 2
  styleId : String := "theme-transition-style"
  externalDarkMode : Option Bool := none
  hasOnDarkModeChange : Bool := false
  storageKey : String := "theme"
  respectSystemPreference : Bool := true
  slideDirection : SlideDirection := SlideDirection.RIGHT
deriving DecidableEq, Repr

/-- The browser environment the hook observes: `isBrowser`,
`document.startViewTransition` presence, the reduced-motion media query,
viewport dimensions, and the bound element's bounding rectangle. -/
structure Rect where
  top : ℚ
  left : ℚ
  width : ℚ
  height : ℚ
deriving DecidableEq, Repr

structure Env where
  isBrowser : Bool
  hasStartViewTransition : Bool
  prefersReducedMotion : Bool
  innerWidth : ℚ
  innerHeight : ℚ
  refRect : Option Rect
deriving DecidableEq, Repr

/-- React state of one hook instance: `internalDarkMode` and
`isTransitioning` (`useState` cells). -/
structure HookState where
  internalDarkMode : Bool
  isTransitioning : Bool
deriving DecidableEq, Repr

/-- Line 134: `externalDarkMode !== undefined ? externalDarkMode :
internalDarkMode`. -/
def isDarkMode (cfg : Config) (s : HookState) : Bool :=
  match cfg.externalDarkMode with
  | some b => b
  | none => s.internalDarkMode

/-- `updateDarkMode` (lines 175-183): resolve the value-or-function
argument against the merged dark-mode value, then either invoke the
caller's callback (recorded in the returned list) or mutate internal
state — never both.  Returns the new hook state and the list of callback
invocations performed. -/
def updateDarkMode (cfg : Config) (s : HookState) (v : Bool ⊕ (Bool → Bool)) :
    HookState × List Bool :=
  let newValue := match v with
    | Sum.inl b => b
    | Sum.inr f => f (isDarkMode cfg s)
  if cfg.hasOnDarkModeChange then (s, [newValue])
  else ({ s with internalDarkMode := newValue }, [])

/-- `getInitialTheme` (lines 114-128), with the environment reads made
explicit: the stored `localStorage` value and the ambient
`prefers-color-scheme: dark` signal are parameters. -/
def getInitialTheme (isBrowser : Bool) (stored : Option String)
    (respectSystemPreference : Bool) (prefersDark : Bool) : Bool :=
  if !isBrowser then false
  else if stored = some "dark" then true
  else if stored = some "light" then false
  else if respectSystemPreference then prefersDark
  else false

/-- Anchor resolution (lines 333-341): viewport center by default,
replaced by the bound element's bounding-box center when the ref is set. -/
def resolveAnchor (refRect : Option Rect) (w h : ℚ) : ℚ × ℚ :=
  match refRect with
  | some r => (r.left + r.width / 2, r.top + r.height / 2)
  | none => (w / 2, h / 2)

/-- The square of the circle kind's `maxRadius` (lines 373-376):
`Math.hypot(Math.max(x, W - x), Math.max(y, H - y))` squared.  Working
with the square keeps the definition in `ℚ` and executable; `hypot` is
the (monotone) square root of this quantity. -/
def maxRadiusSq (x y w h : ℚ) : ℚ :=
  (max x (w - x)) ^ 2 + (max y (h - y)) ^ 2

/-- Squared Euclidean distance between two points. -/
def distSq (p q : ℚ × ℚ) : ℚ :=
  (p.1 - q.1) ^ 2 + (p.2 - q.2) ^ 2

/-- The four viewport corners. -/
def corners (w h : ℚ) : List (ℚ × ℚ) :=
  [(0, 0), (w, 0), (0, h), (w, h)]

/-- The numeric content of the `maskScale` keyframes synthesized by
`applyBlurCircleTransition` (lines 271-313): `viewportSize` is
`Math.max(window.innerWidth, window.innerHeight)`, `scaleFactor` is 5.5,
the mask grows from size 0 at position `(x, y)` to size
`viewportSize * scaleFactor` at position
`(x - size/2, y - size/2)`. -/
structure BlurCircleKeyframes where
  startMaskSize : ℚ
  endMaskSize : ℚ
  startMaskPos : ℚ × ℚ
  endMaskPos : ℚ × ℚ
deriving DecidableEq, Repr

def applyBlurCircleTransition (x y w h : ℚ) : BlurCircleKeyframes :=
  let viewportSize := max w h
  let scaleFactor : ℚ := 11 / 2
  { startMaskSize := 0
    endMaskSize := viewportSize * scaleFactor
    startMaskPos := (x, y)
    endMaskPos := (x - viewportSize * scaleFactor / 2,
                   y - viewportSize * scaleFactor / 2) }

/-- Observable side effects of one `setTheme`/`toggleTheme` call, in the
order the code performs them.  `removeStyle id` is the remove-if-present
at lines 344-347 (and the cleanup timer's removal at lines 401-407);
`createStyle id` is `document.head.appendChild(styleElement)` of a
fragment with element id `id`; `updateDarkMode b` is the state mutation
(direct, or inside the `startViewTransition` callback via `flushSync`). -/
inductive Event where
  | updateDarkMode (b : Bool)
  | resolveGeometry
  | removeStyle (id : String)
  | createStyle (id : String)
  | setTransitioningFlag (b : Bool)
  | startViewTransition
  | awaitReady
  | scheduleCleanup
deriving DecidableEq, Repr

/-- Whether `setTheme` takes the direct (non-animated) path: lines
317-331.  True when outside a browser, when
`document.startViewTransition` is missing, when reduced motion is
preferred, or when the animation type is `NONE`. -/
def directPath (cfg : Config) (env : Env) : Bool :=
  !env.isBrowser || !env.hasStartViewTransition || env.prefersReducedMotion
    || cfg.animationType = ThemeAnimationType.NONE

/-- The style fragments created by the pre-transition `switch` (lines
350-360): one fragment for `FADE`, `SLIDE` and `BLUR_CIRCLE`; nothing for
`CIRCLE` and `NONE` (no `case` matches). -/
def switchCreates (cfg : Config) : List Event :=
  match cfg.animationType with
  | ThemeAnimationType.FADE => [Event.createStyle cfg.styleId]
  | ThemeAnimationType.SLIDE => [Event.createStyle cfg.styleId]
  | ThemeAnimationType.BLUR_CIRCLE => [Event.createStyle cfg.styleId]
  | _ => []

/-- The fragment created by the post-`startViewTransition` `CIRCLE`
branch (lines 372-395). -/
def circleCreates (cfg : Config) : List Event :=
  if cfg.animationType = ThemeAnimationType.CIRCLE then
    [Event.createStyle cfg.styleId]
  else []

/-- `setTheme` (lines 316-408) as a state transformer that also emits
its side-effect trace.  The returned state reflects the updates the call
performs before suspending at `await transition.ready`: the theme update
(applied synchronously inside the transition callback via `flushSync`)
and `setIsTransitioning(true)`.  On the direct path only the theme
update happens.  The cleanup scheduled by `setTimeout` is a separate
block (`cleanupEvents`), since it runs in a later event-loop task. -/
def setThemeStep (cfg : Config) (env : Env) (s : HookState) (isDark : Bool) :
    HookState × List Event :=
  if directPath cfg env then
    ((updateDarkMode cfg s (Sum.inl isDark)).1, [Event.updateDarkMode isDark])
  else
    let s1 := { (updateDarkMode cfg s (Sum.inl isDark)).1 with
                  isTransitioning := true }
    (s1,
      [Event.resolveGeometry, Event.removeStyle cfg.styleId]
        ++ switchCreates cfg
        ++ [Event.setTransitioningFlag true, Event.startViewTransition]
        ++ circleCreates cfg
        ++ [Event.updateDarkMode isDark, Event.awaitReady,
            Event.scheduleCleanup])

/-- The cleanup task scheduled at lines 401-407: remove the fragment with
the configured id if present, clear the transitioning flag. -/
def cleanupEvents (cfg : Config) : List Event :=
  [Event.removeStyle cfg.styleId, Event.setTransitioningFlag false]

/-- `toggleTheme` (lines 411-414): a no-op while `isTransitioning`,
otherwise `setTheme(!isDarkMode)`. -/
def toggleThemeStep (cfg : Config) (env : Env) (s : HookState) :
    HookState × List Event :=
  if s.isTransitioning then (s, [])
  else setThemeStep cfg env s (!isDarkMode cfg s)

/-! ### Fragment accounting

The document's `<style>` fragments are modelled by the number of alive
nodes per element id.  `removeStyle` models
`document.getElementById(styleId)?.remove()`: it removes one node when at
least one is present.  `createStyle` appends one node. -/

/-- The per-id effect of one event on the count of alive fragments. -/
def applyFragEvent (counts : String → ℕ) : Event → (String → ℕ)
  | Event.removeStyle id => fun j => if j = id then counts j - 1 else counts j
  | Event.createStyle id => fun j => if j = id then counts j + 1 else counts j
  | _ => counts

/-- Run a list of events over the fragment counts. -/
def runFrags (counts : String → ℕ) : List Event → (String → ℕ)
  | [] => counts
  | e :: es => runFrags (applyFragEvent counts e) es

/-- Run a list of atomic blocks (event lists) over the fragment counts.
Each synchronous segment of `setTheme` and each cleanup task is one such
block; the event loop interleaves blocks, never single events of
different calls. -/
def runBlocks (counts : String → ℕ) : List (List Event) → (String → ℕ)
  | [] => counts
  | b :: bs => runBlocks (runFrags counts b) bs

/-- The blocks the event loop can schedule: the synchronous segment of
some `setTheme` call, of some `toggleTheme` call, or a cleanup task. -/
inductive IsBlock : List Event → Prop
  | ofSetTheme (cfg : Config) (env : Env) (s : HookState) (b : Bool) :
      IsBlock (setThemeStep cfg env s b).2
  | ofToggleTheme (cfg : Config) (env : Env) (s : HookState) :
      IsBlock (toggleThemeStep cfg env s).2
  | ofCleanup (cfg : Config) : IsBlock (cleanupEvents cfg)

/-- Events that create a style fragment. -/
def isCreate : Event → Bool
  | Event.createStyle _ => true
  | _ => false

/-- Number of style-fragment creations in a trace. -/
def countCreates (es : List Event) : ℕ :=
  (es.filter isCreate).length

/-- Whether every `createStyle` event in the trace occurs strictly
before the `startViewTransition` event (scanning left to right, no
create is seen at or after the transition start). -/
def createsBeforeSVT : List Event → Bool
  | [] => true
  | Event.startViewTransition :: es => !es.any isCreate
  | _ :: es => createsBeforeSVT es

/-! ### Preference and persistence bridge -/

/-- Joint state of one hook instance and the storage entry under the
configured key. -/
structure BridgeState where
  hook : HookState
  stored : Option String
deriving DecidableEq, Repr

/-- JavaScript truthiness of a `localStorage.getItem` result: `null` and
the empty string are falsy; every other string is truthy. -/
def storedTruthy : Option String → Bool
  | none => false
  | some v => !v.isEmpty

/-- The persistence effect (lines 145-155): on every application of the
theme it writes the string `"dark"` or `"light"` to storage, according to
the merged dark-mode value. -/
def applyThemeEffect (cfg : Config) (bs : BridgeState) : BridgeState :=
  let v : String := if isDarkMode cfg bs.hook then "dark" else "light"
  { bs with stored := some v }

/-- `handleChange` (lines 163-168): on an ambient-preference
notification, update the theme only when no stored preference exists
(`!localStorage.getItem(storageKey)`). -/
def handleChange (cfg : Config) (bs : BridgeState) (m : Bool) :
    BridgeState :=
  if !storedTruthy bs.stored then
    { bs with hook := (updateDarkMode cfg bs.hook (Sum.inl m)).1 }
  else bs

/-- Operations that touch the bridge state: a run of the persistence
effect, an ambient-preference notification, or a `setTheme` call (which
never writes storage itself; the persistence effect reruns afterwards). -/
inductive BridgeOp where
  | persist
  | ambient (m : Bool)
  | setThemeOp (env : Env) (b : Bool)

def runBridge (cfg : Config) (bs : BridgeState) : List BridgeOp → BridgeState
  | [] => bs
  | BridgeOp.persist :: ops => runBridge cfg (applyThemeEffect cfg bs) ops
  | BridgeOp.ambient m :: ops => runBridge cfg (handleChange cfg bs m) ops
  | BridgeOp.setThemeOp env b :: ops =>
      runBridge cfg { bs with hook := (setThemeStep cfg env bs.hook b).1 } ops

/-! ### Concrete fixtures used by witnesses and counterexamples -/

/-- A browser environment with the View Transitions primitive, no
reduced-motion preference, a 300x400 viewport and no bound element. -/
def envCapable : Env :=
  { isBrowser := true, hasStartViewTransition := true,
    prefersReducedMotion := false, innerWidth := 300, innerHeight := 400,
    refRect := none }

/-- A non-browser environment. -/
def envNoBrowser : Env :=
  { isBrowser := false, hasStartViewTransition := false,
    prefersReducedMotion := false, innerWidth := 0, innerHeight := 0,
    refRect := none }

/-- The default configuration (animation type `CIRCLE`). -/
def cfgCircle : Config := {}

/-- The default configuration with the `FADE` animation type. -/
def cfgFade : Config := { animationType := ThemeAnimationType.FADE }

/-! ## Theorems -/

/-- C1 (counterexample): the claim says the blur-circle mask grows to
`hypot(viewportW, viewportH) * 5.5`.  At viewport 300x400 the diagonal is
exactly 500 (since 300^2 + 400^2 = 500^2), so the claim requires an end
mask-size of 500 * 5.5 = 2750; the synthesized keyframes end at
`max(300, 400) * 5.5 = 2200` instead. -/
theorem blur_circle_mask_size_cex :
    (300 : ℚ) ^ 2 + (400 : ℚ) ^ 2 = 500 ^ 2 ∧
    (applyBlurCircleTransition 150 200 300 400).endMaskSize ≠ 500 * (11 / 2) ∧
    (applyBlurCircleTransition 150 200 300 400).endMaskSize = 2200 := by
  refine ⟨by norm_num, ?_, ?_⟩ <;> norm_num [applyBlurCircleTransition]

/-- C1 (amended): the blur-circle mask keyframes grow the mask from size
0 at the anchor to `max(viewportW, viewportH) * 5.5` (the larger viewport
dimension times 5.5, not the diagonal), recentering it on the anchor. -/
theorem blur_circle_mask_keyframes (x y w h : ℚ) :
    (applyBlurCircleTransition x y w h).startMaskSize = 0 ∧
    (applyBlurCircleTransition x y w h).endMaskSize = max w h * (11 / 2) ∧
    (applyBlurCircleTransition x y w h).startMaskPos = (x, y) ∧
    (applyBlurCircleTransition x y w h).endMaskPos =
      (x - max w h * (11 / 2) / 2, y - max w h * (11 / 2) / 2) :=
  ⟨rfl, rfl, rfl, rfl⟩

/-- C8: the initial-theme resolver returns `true` for a stored `"dark"`,
`false` for a stored `"light"`, the ambient dark-preference signal when
nothing is stored and ambient preference is respected, `false` when
nothing is stored and it is not respected, and `false` outside a
document environment. -/
theorem initial_theme_resolution (respect prefersDark : Bool)
    (stored : Option String) :
    getInitialTheme true (some "dark") respect prefersDark = true ∧
    getInitialTheme true (some "light") respect prefersDark = false ∧
    getInitialTheme true none true prefersDark = prefersDark ∧
    getInitialTheme true none false prefersDark = false ∧
    getInitialTheme false stored respect prefersDark = false := by
  refine ⟨?_, ?_, ?_, ?_, ?_⟩ <;> simp [getInitialTheme]

/-- C9: the reported dark-mode value is the externally supplied one when
present and the internal one otherwise; the single update path
(`updateDarkMode`) invokes the caller's callback exactly when one is
provided (leaving the hook state untouched) and mutates internal state
exactly when none is (invoking no callback) — never both; and `setTheme`
funnels its theme mutation through that same path. -/
theorem single_update_path (cfg : Config) (s : HookState)
    (v : Bool ⊕ (Bool → Bool)) (e : Bool) :
    (cfg.externalDarkMode = some e → isDarkMode cfg s = e) ∧
    (cfg.externalDarkMode = none → isDarkMode cfg s = s.internalDarkMode) ∧
    (cfg.hasOnDarkModeChange = true →
      (updateDarkMode cfg s v).1 = s ∧ (updateDarkMode cfg s v).2.length = 1) ∧
    (cfg.hasOnDarkModeChange = false →
      (updateDarkMode cfg s v).2 = [] ∧
      (updateDarkMode cfg s v).1 = { s with internalDarkMode :=
        match v with
        | Sum.inl b => b
        | Sum.inr f => f (isDarkMode cfg s) }) ∧
    (∀ env b, (setThemeStep cfg env s b).1.internalDarkMode =
      (updateDarkMode cfg s (Sum.inl b)).1.internalDarkMode) := by
  refine ⟨?_, ?_, ?_, ?_, ?_⟩
  · intro h
    simp [isDarkMode, h]
  · intro h
    simp [isDarkMode, h]
  · intro h
    simp [updateDarkMode, h]
  · intro h
    simp [updateDarkMode, h]
  · intro env b
    by_cases hd : directPath cfg env <;> simp [setThemeStep, hd]

/-- C9 witness: with a caller-supplied callback, the update path leaves
the internal state untouched and records one callback invocation. -/
theorem single_update_path_witness :
    (updateDarkMode { hasOnDarkModeChange := true } ⟨false, false⟩
      (Sum.inl true)).1 = ⟨false, false⟩ ∧
    (updateDarkMode { hasOnDarkModeChange := true } ⟨false, false⟩
      (Sum.inl true)).2.length = 1 :=
  (single_update_path { hasOnDarkModeChange := true } ⟨false, false⟩
    (Sum.inl true) true).2.2.1 rfl

/-- C5: while `isTransitioning` is true, `toggleTheme` is a no-op — the
hook state is unchanged, no style fragment is created and no platform
transition is started; otherwise it equals `setTheme` applied to the
negation of the merged dark-mode value. -/
theorem toggleTheme_guard (cfg : Config) (env : Env) (s : HookState) :
    (s.isTransitioning = true →
      (toggleThemeStep cfg env s).1 = s ∧
      (toggleThemeStep cfg env s).2 = [] ∧
      countCreates (toggleThemeStep cfg env s).2 = 0 ∧
      Event.startViewTransition ∉ (toggleThemeStep cfg env s).2) ∧
    (s.isTransitioning = false →
      toggleThemeStep cfg env s = setThemeStep cfg env s (!isDarkMode cfg s)) := by
  constructor
  · intro h
    simp [toggleThemeStep, h, countCreates]
  · intro h
    simp [toggleThemeStep, h]

/-- C5 witness: a concrete transitioning state on which `toggleTheme`
does nothing. -/
theorem toggleTheme_guard_witness :
    (toggleThemeStep cfgCircle envCapable ⟨true, true⟩).1 = ⟨true, true⟩ ∧
    (toggleThemeStep cfgCircle envCapable ⟨true, true⟩).2 = [] ∧
    countCreates (toggleThemeStep cfgCircle envCapable ⟨true, true⟩).2 = 0 ∧
    Event.startViewTransition ∉ (toggleThemeStep cfgCircle envCapable ⟨true, true⟩).2 :=
  (toggleTheme_guard cfgCircle envCapable ⟨true, true⟩).1 rfl

/-- C6: on the direct path (no browser, no start-transition primitive,
reduced motion active, or animation type `NONE`), `setTheme` performs
exactly one synchronous theme update: no geometry resolution, no style
fragment, no platform transition; with internally owned state the theme
value becomes the argument. -/
theorem setTheme_direct_path (cfg : Config) (env : Env) (s : HookState) (b : Bool)
    (h : env.isBrowser = false ∨ env.hasStartViewTransition = false ∨
      env.prefersReducedMotion = true ∨
      cfg.animationType = ThemeAnimationType.NONE) :
    (setThemeStep cfg env s b).2 = [Event.updateDarkMode b] ∧
    (setThemeStep cfg env s b).1 = (updateDarkMode cfg s (Sum.inl b)).1 ∧
    (cfg.hasOnDarkModeChange = false →
      (setThemeStep cfg env s b).1.internalDarkMode = b) ∧
    countCreates (setThemeStep cfg env s b).2 = 0 ∧
    Event.resolveGeometry ∉ (setThemeStep cfg env s b).2 ∧
    Event.startViewTransition ∉ (setThemeStep cfg env s b).2 := by
  have hd : directPath cfg env = true := by
    unfold directPath
    rcases h with h | h | h | h <;> simp [h]
  refine ⟨?_, ?_, ?_, ?_, ?_, ?_⟩ <;>
    simp [setThemeStep, hd, countCreates, isCreate, updateDarkMode]
  intro hcb
  simp [hcb]

/-- C6 witness: a non-browser environment with the default config. -/
theorem setTheme_direct_path_witness :
    (setThemeStep cfgCircle envNoBrowser ⟨false, false⟩ true).2 =
      [Event.updateDarkMode true] ∧
    (setThemeStep cfgCircle envNoBrowser ⟨false, false⟩ true).1 =
      (updateDarkMode cfgCircle ⟨false, false⟩ (Sum.inl true)).1 ∧
    ((cfgCircle.hasOnDarkModeChange = false →
      (setThemeStep cfgCircle envNoBrowser ⟨false, false⟩ true).1.internalDarkMode = true)) ∧
    countCreates (setThemeStep cfgCircle envNoBrowser ⟨false, false⟩ true).2 = 0 ∧
    Event.resolveGeometry ∉ (setThemeStep cfgCircle envNoBrowser ⟨false, false⟩ true).2 ∧
    Event.startViewTransition ∉ (setThemeStep cfgCircle envNoBrowser ⟨false, false⟩ true).2 :=
  setTheme_direct_path cfgCircle envNoBrowser ⟨false, false⟩ true (Or.inl rfl)

/-- C7: the anchor is the bound element's bounding-box center when a ref
exists and the viewport center otherwise; and for an anchor inside the
viewport, the circle kind's `maxRadius = hypot(max(x, W-x), max(y, H-y))`
is the Euclidean distance from the anchor to the farthest viewport
corner (stated on squared distances, which determine `hypot` since it is
the monotone square root). -/
theorem anchor_and_max_radius (x y w h : ℚ) (r : Rect)
    (hx0 : 0 ≤ x) (hxw : x ≤ w) (hy0 : 0 ≤ y) (hyh : y ≤ h) :
    resolveAnchor (some r) w h = (r.left + r.width / 2, r.top + r.height / 2) ∧
    resolveAnchor none w h = (w / 2, h / 2) ∧
    (∀ c ∈ corners w h, distSq (x, y) c ≤ maxRadiusSq x y w h) ∧
    (∃ c ∈ corners w h, distSq (x, y) c = maxRadiusSq x y w h) := by
  have hxa : x ≤ max x (w - x) := le_max_left _ _
  have hwa : w - x ≤ max x (w - x) := le_max_right _ _
  have hya : y ≤ max y (h - y) := le_max_left _ _
  have hha : h - y ≤ max y (h - y) := le_max_right _ _
  have hwx : (0 : ℚ) ≤ w - x := by linarith
  have hhy : (0 : ℚ) ≤ h - y := by linarith
  refine ⟨rfl, rfl, ?_, ?_⟩
  · intro c hc
    have h1 : x ^ 2 ≤ (max x (w - x)) ^ 2 := pow_le_pow_left₀ hx0 hxa 2
    have h2 : (w - x) ^ 2 ≤ (max x (w - x)) ^ 2 := pow_le_pow_left₀ hwx hwa 2
    have h3 : y ^ 2 ≤ (max y (h - y)) ^ 2 := pow_le_pow_left₀ hy0 hya 2
    have h4 : (h - y) ^ 2 ≤ (max y (h - y)) ^ 2 := pow_le_pow_left₀ hhy hha 2
    simp only [corners, List.mem_cons, List.mem_singleton,
      List.not_mem_nil, or_false] at hc
    rcases hc with h5 | h5 | h5 | h5 <;> subst h5 <;>
      simp only [distSq, maxRadiusSq] <;> nlinarith [h1, h2, h3, h4]
  · rcases le_total x (w - x) with hx | hx <;>
      rcases le_total y (h - y) with hy | hy
    · refine ⟨(w, h), by simp [corners], ?_⟩
      simp only [distSq, maxRadiusSq, max_eq_right hx, max_eq_right hy]
      ring
    · refine ⟨(w, 0), by simp [corners], ?_⟩
      simp only [distSq, maxRadiusSq, max_eq_right hx, max_eq_left hy]
      ring
    · refine ⟨(0, h), by simp [corners], ?_⟩
      simp only [distSq, maxRadiusSq, max_eq_left hx, max_eq_right hy]
      ring
    · refine ⟨(0, 0), by simp [corners], ?_⟩
      simp only [distSq, maxRadiusSq, max_eq_left hx, max_eq_left hy]
      ring

/-- C7 witness: anchor at the origin of a 100x100 viewport — the
farthest-corner distance squared equals `maxRadiusSq 0 0 100 100`
(= 100^2 + 100^2, i.e. `maxRadius = hypot(100, 100)`). -/
theorem anchor_and_max_radius_witness :
    resolveAnchor none 100 100 = ((100 : ℚ) / 2, (100 : ℚ) / 2) ∧
    (∃ c ∈ corners (100 : ℚ) 100, distSq (0, 0) c = maxRadiusSq 0 0 100 100) := by
  have h := anchor_and_max_radius 0 0 100 100 ⟨0, 0, 10, 10⟩
    (by norm_num) (by norm_num) (by norm_num) (by norm_num)
  exact ⟨h.2.1, h.2.2.2⟩

/-- C2 (counterexample): `setTheme` is not animation-idempotent.  With
the fade configuration in a capable environment, a first `setTheme(true)`
makes the theme state `true`; calling `setTheme(true)` again from that
state still creates a style fragment and still starts a platform
transition — a second animation, contradicting "the second call creates
no second animation/style fragment". -/
theorem setTheme_idempotent_cex :
    (setThemeStep cfgFade envCapable ⟨false, false⟩ true).1.internalDarkMode
      = true ∧
    countCreates (setThemeStep cfgFade envCapable
      (setThemeStep cfgFade envCapable ⟨false, false⟩ true).1 true).2 = 1 ∧
    Event.startViewTransition ∈ (setThemeStep cfgFade envCapable
      (setThemeStep cfgFade envCapable ⟨false, false⟩ true).1 true).2 := by
  refine ⟨rfl, rfl, ?_⟩
  simp [setThemeStep, cfgFade, envCapable, directPath, switchCreates,
    circleCreates]

/-- C2 (amended): `setTheme` is idempotent on the theme state only — a
repeated call with the same boolean leaves the (internally owned) theme
state unchanged — but it performs no idempotence check on the animation:
on the animated path every call, including a repeated one, creates a
style fragment and starts a platform transition. -/
theorem setTheme_state_idempotent (cfg : Config) (env : Env) (s : HookState)
    (b : Bool) (hcb : cfg.hasOnDarkModeChange = false) :
    (setThemeStep cfg env s b).1.internalDarkMode = b ∧
    (s.internalDarkMode = b →
      (setThemeStep cfg env s b).1.internalDarkMode = s.internalDarkMode) ∧
    (directPath cfg env = false →
      countCreates (setThemeStep cfg env s b).2 = 1 ∧
      Event.startViewTransition ∈ (setThemeStep cfg env s b).2) := by
  have hupd : ∀ hd : Bool, (setThemeStep cfg env s b).1.internalDarkMode = b := by
    intro _
    by_cases hd : directPath cfg env <;>
      simp [setThemeStep, hd, updateDarkMode, hcb]
  refine ⟨hupd true, fun hb => by rw [hupd true, hb], ?_⟩
  intro hd
  have hnone : cfg.animationType ≠ ThemeAnimationType.NONE := by
    intro hn
    simp [directPath, hn] at hd
  cases hAT : cfg.animationType <;> try exact absurd hAT hnone
  all_goals
    simp [setThemeStep, hd, countCreates, isCreate, switchCreates,
      circleCreates, hAT, List.filter]

/-- C2 witness for the amended claim: repeating `setTheme(true)` from a
dark state keeps the state dark, yet the call still creates one fragment
and starts a transition. -/
theorem setTheme_state_idempotent_witness :
    (setThemeStep cfgFade envCapable ⟨true, false⟩ true).1.internalDarkMode
      = true ∧
    countCreates (setThemeStep cfgFade envCapable ⟨true, false⟩ true).2 = 1 ∧
    Event.startViewTransition ∈
      (setThemeStep cfgFade envCapable ⟨true, false⟩ true).2 := by
  have h := setTheme_state_idempotent cfgFade envCapable ⟨true, false⟩ true rfl
  exact ⟨h.1, h.2.2 rfl⟩

/-- C3 (counterexample): for the default `CIRCLE` animation kind the
animated path is taken and exactly one style fragment is created, but its
creation happens after `startViewTransition` is invoked — style synthesis
does not complete before the platform transition starts. -/
theorem style_before_transition_cex :
    directPath cfgCircle envCapable = false ∧
    countCreates (setThemeStep cfgCircle envCapable ⟨false, false⟩ true).2 = 1 ∧
    createsBeforeSVT
      (setThemeStep cfgCircle envCapable ⟨false, false⟩ true).2 = false := by
  refine ⟨rfl, rfl, rfl⟩

/-- C3 (amended): on the animated path, for the `FADE`, `SLIDE` and
`BLUR_CIRCLE` kinds every style-fragment creation precedes the
`startViewTransition` call; for the `CIRCLE` kind the single fragment is
created only after the call is issued. -/
theorem style_synthesis_order (cfg : Config) (env : Env) (s : HookState)
    (b : Bool) (hd : directPath cfg env = false) :
    (cfg.animationType ≠ ThemeAnimationType.CIRCLE →
      createsBeforeSVT (setThemeStep cfg env s b).2 = true) ∧
    (cfg.animationType = ThemeAnimationType.CIRCLE →
      createsBeforeSVT (setThemeStep cfg env s b).2 = false ∧
      countCreates (setThemeStep cfg env s b).2 = 1) := by
  constructor
  · intro hne
    cases hAT : cfg.animationType <;>
      simp_all [setThemeStep, hd, switchCreates, circleCreates,
        createsBeforeSVT, isCreate]
  · intro hAT
    simp [setThemeStep, hd, switchCreates, circleCreates, hAT,
      createsBeforeSVT, countCreates, isCreate, List.filter]

/-- C3 witness for the amended claim: with the fade kind the fragment is
created before the transition starts; with the circle kind it is not. -/
theorem style_synthesis_order_witness :
    createsBeforeSVT (setThemeStep cfgFade envCapable ⟨false, false⟩ true).2
      = true ∧
    createsBeforeSVT (setThemeStep cfgCircle envCapable ⟨false, false⟩ true).2
      = false := by
  have h1 := style_synthesis_order cfgFade envCapable ⟨false, false⟩ true rfl
  have h2 := style_synthesis_order cfgCircle envCapable ⟨false, false⟩ true rfl
  exact ⟨h1.1 (by simp [cfgFade]), (h2.2 rfl).1⟩

lemma setTheme_frag_bound (cfg : Config) (env : Env) (s : HookState) (b : Bool)
    (counts : String → ℕ) (hc : ∀ j, counts j ≤ 1) (id : String) :
    runFrags counts (setThemeStep cfg env s b).2 id ≤ 1 := by
  have h1 := hc id
  have h2 := hc cfg.styleId
  by_cases hd : directPath cfg env
  · simpa [setThemeStep, hd, runFrags, applyFragEvent] using h1
  · by_cases hid : id = cfg.styleId
    · subst hid
      cases hAT : cfg.animationType <;>
        simp [setThemeStep, hd, switchCreates, circleCreates, hAT, runFrags,
          applyFragEvent] <;> omega
    · cases hAT : cfg.animationType <;>
        simp [setThemeStep, hd, switchCreates, circleCreates, hAT, runFrags,
          applyFragEvent, hid] <;> omega

lemma toggleTheme_frag_bound (cfg : Config) (env : Env) (s : HookState)
    (counts : String → ℕ) (hc : ∀ j, counts j ≤ 1) (id : String) :
    runFrags counts (toggleThemeStep cfg env s).2 id ≤ 1 := by
  by_cases ht : s.isTransitioning
  · simpa [toggleThemeStep, ht, runFrags] using hc id
  · simpa [toggleThemeStep, ht] using
      setTheme_frag_bound cfg env s (!isDarkMode cfg s) counts hc id

lemma cleanup_frag_bound (cfg : Config) (counts : String → ℕ)
    (hc : ∀ j, counts j ≤ 1) (id : String) :
    runFrags counts (cleanupEvents cfg) id ≤ 1 := by
  have h1 := hc id
  simp only [cleanupEvents, runFrags, applyFragEvent]
  split <;> omega

lemma runBlocks_frag_bound (blocks : List (List Event)) :
    ∀ counts : String → ℕ, (∀ bl ∈ blocks, IsBlock bl) →
      (∀ j, counts j ≤ 1) → ∀ id, runBlocks counts blocks id ≤ 1 := by
  induction blocks with
  | nil =>
    intro counts _ hc id
    exact hc id
  | cons bl bs ih =>
    intro counts hb hc id
    have hbl : IsBlock bl := hb bl (List.mem_cons_self _ _)
    have hstep : ∀ j, runFrags counts bl j ≤ 1 := by
      intro j
      cases hbl with
      | ofSetTheme cfg env s b => exact setTheme_frag_bound cfg env s b counts hc j
      | ofToggleTheme cfg env s => exact toggleTheme_frag_bound cfg env s counts hc j
      | ofCleanup cfg => exact cleanup_frag_bound cfg counts hc j
    exact ih (runFrags counts bl)
      (fun b hbm => hb b (List.mem_cons_of_mem _ hbm)) hstep id

/-- C4: starting from a document with no injected fragments, after any
event-loop interleaving of the atomic blocks generated by
`setTheme`/`toggleTheme` calls (their synchronous segments) and cleanup
timers, at most one style fragment is alive per style identifier —
the remove-before-create discipline holds for all interleavings. -/
theorem style_fragment_unique (blocks : List (List Event))
    (hb : ∀ bl ∈ blocks, IsBlock bl) (id : String) :
    runBlocks (fun _ => 0) blocks id ≤ 1 :=
  runBlocks_frag_bound blocks (fun _ => 0) hb (fun _ => Nat.zero_le 1) id

/-- C4 witness: a concrete schedule — one fade `setTheme` call's
synchronous segment followed by its cleanup — leaves at most one alive
fragment under the default style identifier. -/
theorem style_fragment_unique_witness :
    runBlocks (fun _ => 0)
      [(setThemeStep cfgFade envCapable ⟨false, false⟩ true).2,
        cleanupEvents cfgFade] "theme-transition-style" ≤ 1 := by
  refine style_fragment_unique _ ?_ _
  intro bl hbl
  rcases List.mem_cons.mp hbl with h | h
  · subst h
    exact IsBlock.ofSetTheme cfgFade envCapable ⟨false, false⟩ true
  · have h2 := List.mem_singleton.mp h
    subst h2
    exact IsBlock.ofCleanup cfgFade

/-- The storage entry holds an explicit theme after the persistence
effect has run. -/
def StoredThemeValue (bs : BridgeState) : Prop :=
  bs.stored = some "dark" ∨ bs.stored = some "light"

lemma applyThemeEffect_stored (cfg : Config) (bs : BridgeState) :
    StoredThemeValue (applyThemeEffect cfg bs) := by
  by_cases h : isDarkMode cfg bs.hook = true <;>
    simp [applyThemeEffect, StoredThemeValue, h]

lemma handleChange_of_stored (cfg : Config) (bs : BridgeState) (m : Bool)
    (h : StoredThemeValue bs) : handleChange cfg bs m = bs := by
  have hd : storedTruthy (some "dark") = true := by decide
  have hl : storedTruthy (some "light") = true := by decide
  rcases h with h | h <;> simp [handleChange, h, hd, hl]

lemma runBridge_stored (cfg : Config) (ops : List BridgeOp) :
    ∀ bs, StoredThemeValue bs → StoredThemeValue (runBridge cfg bs ops) := by
  induction ops with
  | nil =>
    intro bs h
    exact h
  | cons op ops ih =>
    intro bs h
    cases op with
    | persist => exact ih _ (applyThemeEffect_stored cfg _)
    | ambient m =>
      simp only [runBridge]
      exact ih _ (by rw [handleChange_of_stored cfg bs m h]; exact h)
    | setThemeOp env b =>
      simp only [runBridge]
      exact ih _ h

/-- C10: once the persistence effect has run (which it does on every
theme application, the initial one included), the storage entry holds
`"dark"` or `"light"`; after any further sequence of persistence runs,
ambient notifications and `setTheme` calls it still does, so the
ambient-preference change handler's no-stored-preference condition is
false and every ambient notification leaves the bridge state unchanged. -/
theorem persisted_theme_blocks_ambient (cfg : Config) (bs : BridgeState)
    (ops : List BridgeOp) (m : Bool) :
    handleChange cfg (runBridge cfg (applyThemeEffect cfg bs) ops) m
      = runBridge cfg (applyThemeEffect cfg bs) ops ∧
    StoredThemeValue (runBridge cfg (applyThemeEffect cfg bs) ops) := by
  have h := runBridge_stored cfg ops (applyThemeEffect cfg bs)
    (applyThemeEffect_stored cfg bs)
  exact ⟨handleChange_of_stored cfg _ m h, h⟩

end ThemeTransition
